import Mathlib

/-!
Shallow embedding of `src/mcp_server.py` (the tool-registry-and-dispatch
layer of the ai-travel-agent repository) and proofs about it.

Python values are modelled by the inductive `Value`; Python dicts by
association lists (`PyDict`) with first-match lookup.  The external
collaborators — `graph.invoke`, `serp_search` and `json.dumps` — are
opaque to this layer and are passed in as function parameters.  The
calls a dispatch makes to the pipeline / search collaborators are
recorded in an explicit trace (`List CollabCall`) so that claims about
which collaborator runs, and how often, are statable.
-/

namespace TravelAgent

/-- A Python runtime value, as far as this layer inspects one. -/
inductive Value where
  | vNull : Value
  | vBool : Bool → Value
  | vInt : Int → Value
  | vStr : String → Value
  | vList : List Value → Value
  | vObj : List (String × Value) → Value
deriving Repr

/-- A Python dict, modelled as an association list with first-match lookup. -/
abbrev PyDict := List (String × Value)

/-- Lookup of a key in a dict: `d[k]` when the key is present, `none` otherwise. -/
def dictGet? (d : PyDict) (k : String) : Option Value :=
  match d with
  | [] => none
  | (k₂, v) :: rest => if k₂ = k then some v else dictGet? rest k

/-- Python `d.get(k)`: `None` for a missing key. -/
def pyGet (d : PyDict) (k : String) : Value :=
  (dictGet? d k).getD .vNull

/-- Python truthiness of a value. -/
def pyTruthy : Value → Bool
  | .vNull => false
  | .vBool b => b
  | .vInt n => n != 0
  | .vStr s => s != ""
  | .vList xs => !xs.isEmpty
  | .vObj fs => !fs.isEmpty

/-- Python `a or b`: `a` when truthy, otherwise `b`. -/
def pyOr (a b : Value) : Value :=
  if pyTruthy a then a else b

mutual

/-- Python `repr` of a value (containers render their elements with `repr`). -/
def pyRepr : Value → String
  | .vNull => "None"
  | .vBool true => "True"
  | .vBool false => "False"
  | .vInt n => toString n
  | .vStr s => "\x27" ++ s ++ "\x27"
  | .vList xs => "[" ++ String.intercalate ", " (pyReprList xs) ++ "]"
  | .vObj fs => "\x7b" ++ String.intercalate ", " (pyReprObj fs) ++ "\x7d"

/-- `repr` of each element of a list. -/
def pyReprList : List Value → List String
  | [] => []
  | v :: rest => pyRepr v :: pyReprList rest

/-- `repr` of each key-value entry of a dict. -/
def pyReprObj : List (String × Value) → List String
  | [] => []
  | (k, v) :: rest => ("\x27" ++ k ++ "\x27: " ++ pyRepr v) :: pyReprObj rest

end

/-- Python `str` of a value, as applied by an f-string substitution. -/
def pyStr : Value → String
  | .vStr s => s
  | v => pyRepr v

/-- Exceptions this layer can raise: `KeyError(k)` from direct dict
indexing, and `mcp_types.ToolError(msg)`. -/
inductive PyErr where
  | keyError : String → PyErr
  | toolError : String → PyErr
deriving Repr, DecidableEq

/-- Direct dict indexing `d[k]`: raises `KeyError k` when the key is absent. -/
def dictItem (d : PyDict) (k : String) : Except PyErr Value :=
  match dictGet? d k with
  | some v => .ok v
  | none => .error (.keyError k)

/-- One invocation of an external collaborator, recorded in the trace. -/
inductive CollabCall where
  | graphInvoke : PyDict → CollabCall
  | serpSearch : (query : String) → (engine : String) → CollabCall
deriving Repr

/-- `mcp_types.TextContent`. -/
structure TextContent where
  text : Value
deriving Repr

/-- `mcp_types.BlobContent`; the byte payload is kept as the string it
is the UTF-8 encoding of. -/
structure BlobContent where
  data : String
  media_type : String
  filename : String
deriving Repr, DecidableEq

/-- One typed content part of a tool response. -/
inductive ContentPart where
  | text : TextContent → ContentPart
  | blob : BlobContent → ContentPart
deriving Repr

/-- `mcp_types.ToolResponse`. -/
structure ToolResponse where
  content : List ContentPart
deriving Repr

/-- `mcp_types.JSONSchema` (recursive, so an inductive rather than a structure). -/
inductive JSONSchema where
  | mk : (ty : String) → (properties : List (String × JSONSchema)) →
      (required : List String) → (description : Option String) → JSONSchema
deriving Repr

/-- The `type` field of a schema node. -/
def JSONSchema.ty : JSONSchema → String
  | .mk t _ _ _ => t

/-- The `properties` field of a schema node. -/
def JSONSchema.props : JSONSchema → List (String × JSONSchema)
  | .mk _ p _ _ => p

/-- The `required` field of a schema node. -/
def JSONSchema.req : JSONSchema → List String
  | .mk _ _ r _ => r

/-- `mcp_types.Tool`. -/
structure Tool where
  name : String
  description : String
  input_schema : JSONSchema
deriving Repr

/-- `_default_state` (src/mcp_server.py lines 25-39): construct the
baseline graph state for a new request.  The Python parameter is
annotated `str` but the annotation is not enforced; the actual argument
is `arguments["question"]`, so the parameter is a `Value` here. -/
def _default_state (question : Value) : PyDict :=
  [("messages", .vList [.vObj [("role", .vStr "user"), ("content", question)]]),
   ("user_question", question),
   ("google_results", .vNull),
   ("bing_results", .vNull),
   ("reddit_results", .vNull),
   ("selected_reddit_urls", .vNull),
   ("reddit_post_data", .vNull),
   ("google_analysis", .vNull),
   ("bing_analysis", .vNull),
   ("reddit_analysis", .vNull),
   ("final_answer", .vNull)]

/-- `_flight_lookup` (src/mcp_server.py lines 42-57): build the flight
query and fetch search results via the `serp_search` collaborator.
Returns the result (or the exception raised) together with the trace of
collaborator calls made. -/
def _flight_lookup (serp : String → String → Value) (arguments : PyDict) :
    Except PyErr PyDict × List CollabCall :=
  match dictItem arguments "origin" with
  | .error e => (.error e, [])
  | .ok origin =>
  match dictItem arguments "destination" with
  | .error e => (.error e, [])
  | .ok destination =>
    let depart_date := dictGet? arguments "depart_date"
    let return_date := dictGet? arguments "return_date"
    let query_parts := ["flights from " ++ pyStr origin ++ " to " ++ pyStr destination]
    let query_parts := query_parts ++
      (match depart_date with
       | some d => if pyTruthy d then ["on " ++ pyStr d] else []
       | none => [])
    let query_parts := query_parts ++
      (match return_date with
       | some r => if pyTruthy r then ["return " ++ pyStr r] else []
       | none => [])
    let query := String.intercalate " " query_parts
    let search_results := serp query "google"
    (.ok [("query", .vStr query), ("results", search_results)],
     [.serpSearch query "google"])

/-- `list_tools` (src/mcp_server.py lines 66-100): the two tool
descriptors exposed to MCP clients. -/
def list_tools : List Tool :=
  [{ name := "travel.plan_trip",
     description := "Run the full travel research agent and return a synthesized itinerary.",
     input_schema := .mk "object"
       [("question", .mk "string" [] [] (some "User travel request"))]
       ["question"] none },
   { name := "travel.search_flights",
     description := "Perform a targeted flight availability search using Bright Data SERP. Returns the parsed search response for downstream tooling.",
     input_schema := .mk "object"
       [("origin", .mk "string" [] [] (some "IATA origin code")),
        ("destination", .mk "string" [] [] (some "IATA destination code")),
        ("depart_date", .mk "string" [] [] (some "YYYY-MM-DD departure date")),
        ("return_date", .mk "string" [] [] (some "Optional return date"))]
       ["origin", "destination"] none }]

/-- `call_tool` (src/mcp_server.py lines 103-141): route a tool
invocation to the underlying agent functions.  `graph` is the pipeline
collaborator (`graph.invoke`), `serp` the search collaborator
(`serp_search`), `dumps` the serializer (`json.dumps(-, indent=2)`).
Returns the response (or the exception raised) together with the trace
of collaborator calls made. -/
def call_tool (graph : PyDict → PyDict) (serp : String → String → Value)
    (dumps : Value → String) (name : String) (arguments : PyDict) :
    Except PyErr ToolResponse × List CollabCall :=
  if name = "travel.plan_trip" then
    match dictItem arguments "question" with
    | .error e => (.error e, [])
    | .ok question =>
      let state := _default_state question
      let result := graph state
      let final_answer := pyOr (pyGet result "final_answer") (.vStr "No response produced.")
      let payload := dumps (.vObj result)
      (.ok { content :=
              [.text { text := final_answer },
               .blob { data := payload, media_type := "application/json",
                       filename := "plan_trip.json" }] },
       [.graphInvoke state])
  else if name = "travel.search_flights" then
    match _flight_lookup serp arguments with
    | (.error e, calls) => (.error e, calls)
    | (.ok flight_payload, calls) =>
      match dictItem flight_payload "query" with
      | .error e => (.error e, calls)
      | .ok summary =>
        let payload := dumps (.vObj flight_payload)
        (.ok { content :=
                [.text { text := .vStr ("Flight SERP query executed: " ++ pyStr summary) },
                 .blob { data := payload, media_type := "application/json",
                         filename := "flight_search.json" }] },
         calls)
  else
    (.error (.toolError ("Unsupported tool: " ++ name)), [])

/-- The value carried by the first content part of a response, when that
part is a text part. -/
def firstTextValue (r : ToolResponse) : Option Value :=
  match r.content with
  | .text t :: _ => some t.text
  | _ => none

/-- The media type and filename of the second content part of a
two-part response whose second part is a blob. -/
def secondBlobMeta (r : ToolResponse) : Option (String × String) :=
  match r.content with
  | [_, .blob b] => some (b.media_type, b.filename)
  | _ => none

/-- The query string `_flight_lookup` builds when the `origin` key of
`args` holds `o` and the `destination` key holds `d`: the same
`query_parts` computation as lines 49-55 of the source, factored out so
that theorems can name the query a dispatch passes to the search
collaborator. -/
def flightQueryOf (args : PyDict) (o d : Value) : String :=
  String.intercalate " "
    (["flights from " ++ pyStr o ++ " to " ++ pyStr d]
     ++ (match dictGet? args "depart_date" with
         | some v => if pyTruthy v then ["on " ++ pyStr v] else []
         | none => [])
     ++ (match dictGet? args "return_date" with
         | some v => if pyTruthy v then ["return " ++ pyStr v] else []
         | none => []))

/-! Helper lemmas about `String.intercalate` and re-associating string
appends, used to normalise the query strings built by `_flight_lookup`. -/

/-- Joining a singleton list yields its element. -/
theorem intercalate_go_nil (a s : String) : String.intercalate.go a s [] = a := rfl

/-- Joining a two-element list inserts the separator once. -/
theorem intercalate_go_one (a s b : String) :
    String.intercalate.go a s [b] = a ++ s ++ b := rfl

/-- Joining a three-element list inserts the separator twice. -/
theorem intercalate_go_two (a s b c : String) :
    String.intercalate.go a s [b, c] = a ++ s ++ b ++ s ++ c := rfl

/-- Merging the join separator into the depart-date clause. -/
theorem space_on (s : String) : " " ++ ("on " ++ s) = " on " ++ s := by
  rw [← String.append_assoc]; rfl

/-- Merging the join separator into the return-date clause. -/
theorem space_return (s : String) : " " ++ ("return " ++ s) = " return " ++ s := by
  rw [← String.append_assoc]; rfl

/-- C1: for every origin and destination string and every optional
depart/return date, the query built by `_flight_lookup` is
`"flights from <origin> to <destination>"`, followed by
`" on <depart_date>"` exactly when the depart date is present and
non-empty, followed by `" return <return_date>"` exactly when the
return date is present and non-empty; in particular with origin `SFO`,
destination `NRT`, depart date `2024-05-01` and no return date it is
exactly `"flights from SFO to NRT on 2024-05-01"`. -/
theorem claim_C1_flight_query_format (serp : String → String → Value)
    (o d : String) (dd rd : Option String) :
    ((_flight_lookup serp ([("origin", Value.vStr o), ("destination", Value.vStr d)]
        ++ (dd.elim [] fun s => [("depart_date", Value.vStr s)])
        ++ (rd.elim [] fun s => [("return_date", Value.vStr s)]))).1.map
      (fun fp => pyGet fp "query"))
      = .ok (.vStr ("flights from " ++ o ++ " to " ++ d
          ++ (dd.elim "" fun s => if s = "" then "" else " on " ++ s)
          ++ (rd.elim "" fun s => if s = "" then "" else " return " ++ s)))
    ∧ ((_flight_lookup serp [("origin", Value.vStr "SFO"), ("destination", Value.vStr "NRT"),
          ("depart_date", Value.vStr "2024-05-01")]).1.map
        (fun fp => pyGet fp "query"))
      = .ok (.vStr "flights from SFO to NRT on 2024-05-01") := by
  refine ⟨?_, rfl⟩
  rcases dd with _ | s₁ <;> rcases rd with _ | s₂ <;>
    simp [_flight_lookup, dictItem, dictGet?, pyGet, pyStr, pyTruthy, String.intercalate,
      Option.elim] <;>
    (try split_ifs) <;>
    simp_all [Except.map, dictGet?, pyGet, intercalate_go_nil, intercalate_go_one,
      intercalate_go_two, String.append_assoc, space_on, space_return]

/-- C2: on a `travel.plan_trip` call, if the result mapping returned by
the pipeline collaborator has no `final_answer` key or its value is
falsy, the text content part is exactly `"No response produced."`;
otherwise it is the value of `final_answer`. -/
theorem claim_C2_final_answer_fallback (graph : PyDict → PyDict)
    (serp : String → String → Value) (dumps : Value → String)
    (args : PyDict) (q : Value) (h : dictGet? args "question" = some q) :
    ((call_tool graph serp dumps "travel.plan_trip" args).1.map firstTextValue)
      = .ok (some (match dictGet? (graph (_default_state q)) "final_answer" with
          | some v => if pyTruthy v then v else .vStr "No response produced."
          | none => .vStr "No response produced.")) := by
  cases hfa : dictGet? (graph (_default_state q)) "final_answer" with
  | none =>
    simp [call_tool, dictItem, h, pyOr, pyGet, hfa, pyTruthy, firstTextValue, Except.map]
  | some v =>
    by_cases hv : pyTruthy v <;>
      simp [call_tool, dictItem, h, pyOr, pyGet, hfa, hv, firstTextValue, Except.map]

/-- C2 witness: with a pipeline collaborator returning an empty result
mapping, the text part is the fallback string. -/
theorem claim_C2_final_answer_fallback_witness :
    ((call_tool (fun _ => []) (fun _ _ => .vNull) (fun _ => "")
        "travel.plan_trip" [("question", Value.vStr "hi")]).1.map firstTextValue)
      = .ok (some (.vStr "No response produced.")) :=
  claim_C2_final_answer_fallback (fun _ => []) (fun _ _ => .vNull) (fun _ => "")
    [("question", Value.vStr "hi")] (Value.vStr "hi") rfl

/-- C3: a successful `travel.plan_trip` call returns exactly two
content parts, a text part followed by a blob part with media type
`application/json` and filename `plan_trip.json` whose bytes are the
serialization of the entire result mapping returned by the pipeline
collaborator. -/
theorem claim_C3_plan_trip_response_shape (graph : PyDict → PyDict)
    (serp : String → String → Value) (dumps : Value → String)
    (args : PyDict) (q : Value) (h : dictGet? args "question" = some q) :
    ∃ t : TextContent,
      (call_tool graph serp dumps "travel.plan_trip" args).1
        = .ok { content :=
            [.text t,
             .blob { data := dumps (.vObj (graph (_default_state q))),
                     media_type := "application/json",
                     filename := "plan_trip.json" }] } :=
  ⟨{ text := pyOr (pyGet (graph (_default_state q)) "final_answer")
      (.vStr "No response produced.") },
   by simp [call_tool, dictItem, h]⟩

/-- C3 witness: the response shape at a concrete call. -/
theorem claim_C3_plan_trip_response_shape_witness :
    ∃ t : TextContent,
      (call_tool (fun _ => [("final_answer", Value.vStr "Go.")]) (fun _ _ => .vNull)
          (fun _ => "PAYLOAD") "travel.plan_trip" [("question", Value.vStr "hi")]).1
        = .ok { content :=
            [.text t,
             .blob { data := "PAYLOAD", media_type := "application/json",
                     filename := "plan_trip.json" }] } :=
  claim_C3_plan_trip_response_shape (fun _ => [("final_answer", Value.vStr "Go.")])
    (fun _ _ => .vNull) (fun _ => "PAYLOAD") [("question", Value.vStr "hi")]
    (Value.vStr "hi") rfl

/-- C4: dispatch with any tool name other than `travel.plan_trip` and
`travel.search_flights` fails with an unsupported-tool error, returns
no response, and invokes no collaborator (empty call trace). -/
theorem claim_C4_unknown_tool (graph : PyDict → PyDict)
    (serp : String → String → Value) (dumps : Value → String)
    (name : String) (args : PyDict)
    (h₁ : name ≠ "travel.plan_trip") (h₂ : name ≠ "travel.search_flights") :
    call_tool graph serp dumps name args
      = (.error (.toolError ("Unsupported tool: " ++ name)), []) := by
  simp [call_tool, h₁, h₂]

/-- C4 witness: dispatching `travel.unknown` fails without any
collaborator call. -/
theorem claim_C4_unknown_tool_witness :
    call_tool (fun _ => []) (fun _ _ => .vNull) (fun _ => "") "travel.unknown" []
      = (.error (.toolError "Unsupported tool: travel.unknown"), []) :=
  claim_C4_unknown_tool (fun _ => []) (fun _ _ => .vNull) (fun _ => "")
    "travel.unknown" [] (by decide) (by decide)

/-- C5: a `travel.plan_trip` call without `question` fails with a
`KeyError` naming the missing field and an empty collaborator trace
(so no pipeline invocation and no state handed to it); likewise a
`travel.search_flights` call without `origin`, or with `origin` but
without `destination`, fails before the search collaborator runs. -/
theorem claim_C5_missing_required_argument :
    (∀ (graph : PyDict → PyDict) (serp : String → String → Value)
       (dumps : Value → String) (args : PyDict),
       dictGet? args "question" = none →
       call_tool graph serp dumps "travel.plan_trip" args
         = (.error (.keyError "question"), []))
    ∧ (∀ (graph : PyDict → PyDict) (serp : String → String → Value)
       (dumps : Value → String) (args : PyDict),
       dictGet? args "origin" = none →
       call_tool graph serp dumps "travel.search_flights" args
         = (.error (.keyError "origin"), []))
    ∧ (∀ (graph : PyDict → PyDict) (serp : String → String → Value)
       (dumps : Value → String) (args : PyDict) (o : Value),
       dictGet? args "origin" = some o → dictGet? args "destination" = none →
       call_tool graph serp dumps "travel.search_flights" args
         = (.error (.keyError "destination"), [])) := by
  refine ⟨fun graph serp dumps args h => ?_, fun graph serp dumps args h => ?_,
    fun graph serp dumps args o h₁ h₂ => ?_⟩
  · simp [call_tool, dictItem, h]
  · simp [call_tool, _flight_lookup, dictItem, h]
  · simp [call_tool, _flight_lookup, dictItem, h₁, h₂]

/-- C5 witness: the three missing-argument failures at concrete calls. -/
theorem claim_C5_missing_required_argument_witness :
    call_tool (fun _ => []) (fun _ _ => .vNull) (fun _ => "") "travel.plan_trip" []
      = (.error (.keyError "question"), [])
    ∧ call_tool (fun _ => []) (fun _ _ => .vNull) (fun _ => "") "travel.search_flights" []
      = (.error (.keyError "origin"), [])
    ∧ call_tool (fun _ => []) (fun _ _ => .vNull) (fun _ => "") "travel.search_flights"
        [("origin", Value.vStr "SFO")]
      = (.error (.keyError "destination"), []) :=
  ⟨claim_C5_missing_required_argument.1 (fun _ => []) (fun _ _ => .vNull) (fun _ => "")
     [] rfl,
   claim_C5_missing_required_argument.2.1 (fun _ => []) (fun _ _ => .vNull) (fun _ => "")
     [] rfl,
   claim_C5_missing_required_argument.2.2 (fun _ => []) (fun _ _ => .vNull) (fun _ => "")
     [("origin", Value.vStr "SFO")] (Value.vStr "SFO") rfl rfl⟩

/-- C6: a successful `travel.search_flights` call invokes the search
collaborator exactly once, with the formatted query string and the
engine fixed to `google`, and the blob payload is the serialization of
the mapping with keys `query` (the query string) and `results` (the
collaborator's result). -/
theorem claim_C6_search_collaborator_once (graph : PyDict → PyDict)
    (serp : String → String → Value) (dumps : Value → String)
    (args : PyDict) (o d : Value)
    (h₁ : dictGet? args "origin" = some o) (h₂ : dictGet? args "destination" = some d) :
    call_tool graph serp dumps "travel.search_flights" args
      = (.ok { content :=
          [.text { text := .vStr ("Flight SERP query executed: "
              ++ flightQueryOf args o d) },
           .blob (BlobContent.mk
             (dumps (.vObj [("query", .vStr (flightQueryOf args o d)),
                            ("results", serp (flightQueryOf args o d) "google")]))
             "application/json" "flight_search.json")] },
         [.serpSearch (flightQueryOf args o d) "google"]) := by
  simp [call_tool, _flight_lookup, dictItem, h₁, h₂, flightQueryOf, pyStr, dictGet?]

/-- C6 witness: a concrete flight search with no dates. -/
theorem claim_C6_search_collaborator_once_witness :
    call_tool (fun _ => []) (fun q e => .vStr (q ++ "|" ++ e)) (fun _ => "P")
        "travel.search_flights"
        [("origin", Value.vStr "SFO"), ("destination", Value.vStr "NRT")]
      = (.ok { content :=
          [.text { text := .vStr "Flight SERP query executed: flights from SFO to NRT" },
           .blob { data := "P", media_type := "application/json",
                   filename := "flight_search.json" }] },
         [.serpSearch "flights from SFO to NRT" "google"]) := by
  have h := claim_C6_search_collaborator_once (fun _ => [])
    (fun q e => .vStr (q ++ "|" ++ e)) (fun _ => "P")
    [("origin", Value.vStr "SFO"), ("destination", Value.vStr "NRT")]
    (Value.vStr "SFO") (Value.vStr "NRT") rfl rfl
  simpa using h

/-- C7: for every question, the state built by `_default_state` records
the question both as the content of the single seed message (with role
`user`) and in the dedicated `user_question` field, and every
result/analysis slot is explicitly present with the absent marker
(`None`, modelled `vNull`) rather than left undefined. -/
theorem claim_C7_default_state_slots (q : Value) :
    dictGet? (_default_state q) "messages"
        = some (.vList [.vObj [("role", .vStr "user"), ("content", q)]])
    ∧ dictGet? (_default_state q) "user_question" = some q
    ∧ dictGet? (_default_state q) "google_results" = some .vNull
    ∧ dictGet? (_default_state q) "bing_results" = some .vNull
    ∧ dictGet? (_default_state q) "reddit_results" = some .vNull
    ∧ dictGet? (_default_state q) "selected_reddit_urls" = some .vNull
    ∧ dictGet? (_default_state q) "reddit_post_data" = some .vNull
    ∧ dictGet? (_default_state q) "google_analysis" = some .vNull
    ∧ dictGet? (_default_state q) "bing_analysis" = some .vNull
    ∧ dictGet? (_default_state q) "reddit_analysis" = some .vNull
    ∧ dictGet? (_default_state q) "final_answer" = some .vNull :=
  ⟨rfl, rfl, rfl, rfl, rfl, rfl, rfl, rfl, rfl, rfl, rfl⟩

/-- C8: `list_tools` is a pure constant (so it takes no argument, has
no side effect or failure mode, and every call returns the same ordered
sequence); its descriptor names are `travel.plan_trip` and
`travel.search_flights`, pairwise distinct; `travel.plan_trip` requires
exactly the field `question`, declared a string, and
`travel.search_flights` requires exactly `origin` and `destination`,
all of its declared properties being strings. -/
theorem claim_C8_registry_descriptors :
    list_tools.map Tool.name = ["travel.plan_trip", "travel.search_flights"]
    ∧ (list_tools.map Tool.name).Nodup
    ∧ (list_tools.map fun t => t.input_schema.req)
        = [["question"], ["origin", "destination"]]
    ∧ (list_tools.map fun t => t.input_schema.props.map fun p => (p.1, p.2.ty))
        = [[("question", "string")],
           [("origin", "string"), ("destination", "string"),
            ("depart_date", "string"), ("return_date", "string")]] :=
  ⟨rfl, by decide, rfl, rfl⟩

/-- C9: the `"No response produced."` substitution on `travel.plan_trip`
affects only the text part: when `final_answer` is absent or falsy in
the pipeline's result mapping, the blob payload is still the
serialization of that result mapping exactly as returned (so the
serialized payload keeps the original absent/falsy value and no other
field is modified before serialization). -/
theorem claim_C9_payload_unmodified (result : PyDict)
    (serp : String → String → Value) (dumps : Value → String)
    (args : PyDict) (q : Value)
    (h₁ : dictGet? args "question" = some q)
    (h₂ : pyTruthy (pyGet result "final_answer") = false) :
    (call_tool (fun _ => result) serp dumps "travel.plan_trip" args).1
      = .ok { content :=
          [.text { text := .vStr "No response produced." },
           .blob { data := dumps (.vObj result),
                   media_type := "application/json",
                   filename := "plan_trip.json" }] } := by
  simp [call_tool, dictItem, h₁, pyOr, h₂]

/-- C9 witness: a result mapping whose `final_answer` is the falsy
empty string is serialized unchanged while the text is substituted. -/
theorem claim_C9_payload_unmodified_witness :
    (call_tool (fun _ => [("final_answer", Value.vStr "")]) (fun _ _ => .vNull)
        pyRepr "travel.plan_trip" [("question", Value.vStr "hi")]).1
      = .ok { content :=
          [.text { text := .vStr "No response produced." },
           .blob { data := pyRepr (.vObj [("final_answer", Value.vStr "")]),
                   media_type := "application/json",
                   filename := "plan_trip.json" }] } :=
  claim_C9_payload_unmodified [("final_answer", Value.vStr "")] (fun _ _ => .vNull)
    pyRepr [("question", Value.vStr "hi")] (Value.vStr "hi") rfl rfl

/-- C10: on a successful `travel.search_flights` call, the text content
part is exactly `"Flight SERP query executed: "` concatenated with the
formatted query string, and the second content part is a blob with
media type `application/json` and filename `flight_search.json`. -/
theorem claim_C10_search_response_text (graph : PyDict → PyDict)
    (serp : String → String → Value) (dumps : Value → String)
    (args : PyDict) (o d : Value)
    (h₁ : dictGet? args "origin" = some o) (h₂ : dictGet? args "destination" = some d) :
    ((call_tool graph serp dumps "travel.search_flights" args).1.map firstTextValue)
      = .ok (some (.vStr ("Flight SERP query executed: " ++ flightQueryOf args o d)))
    ∧ ((call_tool graph serp dumps "travel.search_flights" args).1.map secondBlobMeta)
      = .ok (some ("application/json", "flight_search.json")) := by
  constructor <;>
    simp [call_tool, _flight_lookup, dictItem, h₁, h₂, flightQueryOf,
      firstTextValue, secondBlobMeta, Except.map, pyStr, dictGet?]

/-- C10 witness: the text and blob metadata at a concrete flight
search. -/
theorem claim_C10_search_response_text_witness :
    ((call_tool (fun _ => []) (fun _ _ => .vNull) (fun _ => "P") "travel.search_flights"
        [("origin", Value.vStr "SFO"), ("destination", Value.vStr "NRT")]).1.map
      firstTextValue)
      = .ok (some (.vStr "Flight SERP query executed: flights from SFO to NRT"))
    ∧ ((call_tool (fun _ => []) (fun _ _ => .vNull) (fun _ => "P") "travel.search_flights"
        [("origin", Value.vStr "SFO"), ("destination", Value.vStr "NRT")]).1.map
      secondBlobMeta)
      = .ok (some ("application/json", "flight_search.json")) := by
  have h := claim_C10_search_response_text (fun _ => []) (fun _ _ => .vNull) (fun _ => "P")
    [("origin", Value.vStr "SFO"), ("destination", Value.vStr "NRT")]
    (Value.vStr "SFO") (Value.vStr "NRT") rfl rfl
  simpa using h

end TravelAgent
